import Mathlib

/-!
Shallow embedding of the seat-inventory reservation core of the railway
management backend (`backend/app`): the data model (`app/models`), the
synchronous booking service (`app/services/__init__.py`, `BookingService`),
the asynchronous repository with pessimistic seat locking
(`app/repositories/booking.py`, `BookingRepository`), the booking API
endpoint (`app/api/bookings.py`), and the payment processing endpoint
(`app/api/payments.py`, `process_payment`).

Database rows are Lean structures, tables are lists, SQLAlchemy
`query(...).filter(...).first()` is `List.find?`, and an ORM in-place
mutation of the first matching row is `updateFirst`.  A raised Python
exception is an `Except.error` carrying a constructor named after the
exception class; an `Except.error` result leaves the caller's durable
state unchanged (nothing was committed), exactly as the endpoint's
rollback-on-exception handler guarantees.  Monetary DECIMAL columns are
embedded as `Int` (whole currency units suffice: the code only multiplies
and adds them), counters as `Int` so that non-negativity of
`available_seats` is a provable property rather than a typing artifact.
Randomly generated booking references, timestamps and journey dates are
not part of any verified property and are omitted from the row types.
-/

namespace Railway

/-- `app/models/__init__.py` `BookingStatus`: confirmed / cancelled / completed. -/
inductive BookingStatus
  | confirmed
  | cancelled
  | completed
deriving DecidableEq, Repr

/-- `app/models/__init__.py` `Gender`. -/
inductive Gender
  | male
  | female
  | other
deriving DecidableEq, Repr

/-- `app/models/__init__.py` `Train`: only the fields the reservation core reads. -/
structure Train where
  id : Nat
  total_seats : Nat
deriving DecidableEq, Repr

/-- `app/models/__init__.py` `Route`: fare and distance live on the route. -/
structure Route where
  id : Nat
  train_id : Nat
  base_fare : Int
  distance_km : Nat
deriving DecidableEq, Repr

/-- `app/models/__init__.py` `TrainSchedule`: one run on one date, with the
mutable `available_seats` counter. -/
structure TrainSchedule where
  id : Nat
  route_id : Nat
  available_seats : Int
deriving DecidableEq, Repr

/-- `app/models/__init__.py` `Booking` row. -/
structure Booking where
  id : Nat
  user_id : Nat
  schedule_id : Nat
  passenger_count : Nat
  total_amount : Int
  status : BookingStatus
deriving DecidableEq, Repr

/-- `app/schemas/__init__.py` `PassengerCreate` request item. -/
structure PassengerCreate where
  name : String
  age : Nat
  gender : Gender
deriving DecidableEq, Repr

/-- `app/models/__init__.py` `Passenger` row. -/
structure Passenger where
  booking_id : Nat
  name : String
  age : Nat
  gender : Gender
deriving DecidableEq, Repr

/-- `app/schemas/__init__.py` `BookingCreate` request body. -/
structure BookingCreate where
  schedule_id : Nat
  passengers : List PassengerCreate
deriving DecidableEq, Repr

/-- `app/models/__init__.py` `RefundRequest` row (fields the cancel path writes). -/
structure RefundRequest where
  booking_id : Nat
  user_id : Nat
  amount : Int
deriving DecidableEq, Repr

/-- `app/models/payment.py` `PaymentMethod` (mirrored by
`app/schemas/payment.py` `PaymentMethodEnum`, which `PaymentCreate`
accepts): CREDIT_CARD, DEBIT_CARD, WALLET, UPI. -/
inductive PaymentMethod
  | credit_card
  | debit_card
  | wallet
  | upi
deriving DecidableEq, Repr

/-- `app/models/payment.py` `Wallet` row. -/
structure Wallet where
  id : Nat
  user_id : Nat
  balance : Int
deriving DecidableEq, Repr

/-- `app/models/payment.py` `CreditCard` row (fields `process_payment` reads). -/
structure CreditCard where
  id : Nat
  user_id : Nat
  balance : Int
  is_active : Bool
deriving DecidableEq, Repr

/-- `app/models/payment.py` `UpiId` row (fields `process_payment` reads). -/
structure UpiId where
  id : Nat
  user_id : Nat
  balance : Int
  is_active : Bool
deriving DecidableEq, Repr

/-- A debit/credit row of `WalletTransaction` / `CardTransaction` /
`UpiTransaction` (`app/models/payment.py`): owner id, kind, amount. -/
structure TransactionRow where
  owner_id : Nat
  transaction_type : String
  amount : Int
deriving DecidableEq, Repr

/-- `app/models/payment.py` `Payment` row. -/
structure Payment where
  booking_id : Nat
  user_id : Nat
  amount : Int
  payment_method : PaymentMethod
deriving DecidableEq, Repr

/-- `app/schemas/payment.py` `PaymentCreate` request body. -/
structure PaymentCreate where
  booking_id : Nat
  payment_method : PaymentMethod
  card_id : Option Nat
  upi_id : Option Nat
deriving DecidableEq, Repr

/-- The durable database state: one list per table touched by the
reservation and payment paths, plus the autoincrement counter that
`db.flush()` consults for the next booking id. -/
structure DBState where
  trains : List Train
  routes : List Route
  schedules : List TrainSchedule
  bookings : List Booking
  passengers : List Passenger
  refund_requests : List RefundRequest
  wallets : List Wallet
  credit_cards : List CreditCard
  upi_ids : List UpiId
  payments : List Payment
  wallet_transactions : List TransactionRow
  card_transactions : List TransactionRow
  upi_transactions : List TransactionRow
  nextBookingId : Nat
deriving DecidableEq, Repr

/-- Exceptions raised by the embedded code, one constructor per Python
exception class:
* `valueError` — Python `ValueError(msg)` raised by `BookingService`;
* `notFoundError` — `app.core.exceptions.NotFoundError(resource, identifier)`;
* `insufficientSeatsError` — `app.core.exceptions.InsufficientSeatsError(available, requested)`;
* `attributeError` — Python `AttributeError` from reading an attribute of `None`;
* `noResultFound` — SQLAlchemy `scalar_one()` on an empty result;
* `httpException` — FastAPI `HTTPException(status_code, detail)`. -/
inductive Err
  | valueError (msg : String)
  | notFoundError (resource : String) (identifier : Nat)
  | insufficientSeatsError (available : Int) (requested : Nat)
  | attributeError
  | noResultFound
  | httpException (status_code : Nat) (detail : String)
deriving DecidableEq, Repr

/-- Mutate the first element of a list satisfying `p` in place — the effect
an ORM field assignment on the object returned by `.first()` has on the
committed table. -/
def updateFirst (p : α → Bool) (f : α → α) : List α → List α
  | [] => []
  | x :: xs => if p x then f x :: xs else x :: updateFirst p f xs

/-- `BookingService.create_booking` (`app/services/__init__.py` lines 250-294).
Looks up the schedule; a missing schedule or `available_seats <
len(passengers)` raises the one `ValueError("Insufficient seats available")`;
otherwise it prices the booking at `schedule.route.base_fare *
len(passengers)`, inserts the booking row (status defaults to `confirmed`)
and its passenger rows, decrements `available_seats`, and commits.  The
journey-date arithmetic and the random booking reference are not modelled.
An `Except.error` result means the transaction never committed: the
caller's durable state is unchanged. -/
def create_booking (db : DBState) (booking : BookingCreate) (user_id : Nat) :
    Except Err (DBState × Booking) :=
  match db.schedules.find? (fun s => s.id == booking.schedule_id) with
  | none => .error (.valueError "Insufficient seats available")
  | some schedule =>
    if schedule.available_seats < (booking.passengers.length : Int) then
      .error (.valueError "Insufficient seats available")
    else
      match db.routes.find? (fun r => r.id == schedule.route_id) with
      | none => .error .attributeError
      | some route =>
        let total_amount : Int := route.base_fare * (booking.passengers.length : Int)
        let db_booking : Booking :=
          { id := db.nextBookingId
            user_id := user_id
            schedule_id := booking.schedule_id
            passenger_count := booking.passengers.length
            total_amount := total_amount
            status := BookingStatus.confirmed }
        let db1 : DBState :=
          { db with
            bookings := db.bookings ++ [db_booking]
            passengers := db.passengers ++ booking.passengers.map (fun p =>
              { booking_id := db_booking.id, name := p.name, age := p.age, gender := p.gender })
            schedules := updateFirst (fun s => s.id == booking.schedule_id)
              (fun s => { s with available_seats :=
                s.available_seats - (booking.passengers.length : Int) }) db.schedules
            nextBookingId := db.nextBookingId + 1 }
        .ok (db1, db_booking)

/-- `BookingService.cancel_booking_with_refund` (`app/services/__init__.py`
lines 330-360).  Finds the booking by id and owner, refuses anything not
`confirmed`, flips the status to `cancelled`, restores the schedule's
seats by `passenger_count`, records a pending refund request, and commits;
returns the refund amount.  If the booking's schedule row were absent the
Python code would crash with `AttributeError` before committing. -/
def cancel_booking_with_refund (db : DBState) (booking_id user_id : Nat) :
    Except Err (DBState × Int) :=
  match db.bookings.find? (fun b => b.id == booking_id && b.user_id == user_id) with
  | none => .error (.valueError "Booking not found")
  | some booking =>
    if booking.status ≠ BookingStatus.confirmed then
      .error (.valueError "Only confirmed bookings can be cancelled")
    else
      match db.schedules.find? (fun s => s.id == booking.schedule_id) with
      | none => .error .attributeError
      | some _ =>
        let db1 : DBState :=
          { db with
            bookings := updateFirst (fun b => b.id == booking_id && b.user_id == user_id)
              (fun b => { b with status := BookingStatus.cancelled }) db.bookings
            schedules := updateFirst (fun s => s.id == booking.schedule_id)
              (fun s => { s with available_seats :=
                s.available_seats + (booking.passenger_count : Int) }) db.schedules
            refund_requests := db.refund_requests ++
              [{ booking_id := booking_id, user_id := user_id, amount := booking.total_amount }] }
        .ok (db1, booking.total_amount)

/-- `BookingRepository.create_booking_with_seat_lock`
(`app/repositories/booking.py` lines 21-98).  Inside one transaction it
locks the schedule row (`with_for_update`), raises
`NotFoundError("TrainSchedule", id)` if the schedule does not resolve,
raises `InsufficientSeatsError(available, requested)` if
`available_seats < len(passengers)`, otherwise prices the booking at
`schedule.route.base_fare * passenger_count`, inserts the booking
(status `"confirmed"`) and passengers, decrements `available_seats`, and
commits.  The row lock's serialization is a property of the database and
is discussed where it matters (claim C9). -/
def create_booking_with_seat_lock (db : DBState) (booking_data : BookingCreate)
    (user_id : Nat) : Except Err (DBState × Booking) :=
  match db.schedules.find? (fun s => s.id == booking_data.schedule_id) with
  | none => .error (.notFoundError "TrainSchedule" booking_data.schedule_id)
  | some schedule =>
    if schedule.available_seats < (booking_data.passengers.length : Int) then
      .error (.insufficientSeatsError schedule.available_seats booking_data.passengers.length)
    else
      match db.routes.find? (fun r => r.id == schedule.route_id) with
      | none => .error .attributeError
      | some route =>
        let total_amount : Int := route.base_fare * (booking_data.passengers.length : Int)
        let booking : Booking :=
          { id := db.nextBookingId
            user_id := user_id
            schedule_id := booking_data.schedule_id
            passenger_count := booking_data.passengers.length
            total_amount := total_amount
            status := BookingStatus.confirmed }
        let db1 : DBState :=
          { db with
            bookings := db.bookings ++ [booking]
            passengers := db.passengers ++ booking_data.passengers.map (fun p =>
              { booking_id := booking.id, name := p.name, age := p.age, gender := p.gender })
            schedules := updateFirst (fun s => s.id == booking_data.schedule_id)
              (fun s => { s with available_seats :=
                s.available_seats - (booking_data.passengers.length : Int) }) db.schedules
            nextBookingId := db.nextBookingId + 1 }
        .ok (db1, booking)

/-- `BookingRepository.cancel_booking_with_seat_release`
(`app/repositories/booking.py` lines 100-159).  Selects the booking by id,
owner and `status == "confirmed"` under lock; if none matches it returns
`None` (no error, no mutation).  Otherwise it loads the schedule with
`scalar_one()` (which raises if the row is absent), marks the booking
`cancelled`, releases the seats, and commits, returning the refreshed
booking. -/
def cancel_booking_with_seat_release (db : DBState) (booking_id user_id : Nat) :
    Except Err (Option (DBState × Booking)) :=
  match db.bookings.find? (fun b =>
      b.id == booking_id && b.user_id == user_id && b.status == BookingStatus.confirmed) with
  | none => .ok none
  | some booking =>
    match db.schedules.find? (fun s => s.id == booking.schedule_id) with
    | none => .error .noResultFound
    | some _ =>
      let db1 : DBState :=
        { db with
          bookings := updateFirst (fun b =>
              b.id == booking_id && b.user_id == user_id && b.status == BookingStatus.confirmed)
            (fun b => { b with status := BookingStatus.cancelled }) db.bookings
          schedules := updateFirst (fun s => s.id == booking.schedule_id)
            (fun s => { s with available_seats :=
              s.available_seats + (booking.passenger_count : Int) }) db.schedules }
      .ok (some (db1, { booking with status := BookingStatus.cancelled }))

/-- The API endpoint `create_booking` (`app/api/bookings.py` lines 11-29)
wrapping `BookingService.create_booking` in `try/except`: a `ValueError`
becomes HTTP 400 with the error's message, any other exception triggers
`db.rollback()` and HTTP 500 `"Booking failed. Please try again."`.
Modelled from the spec: the durable store's commit step (external
collaborator, §6) either commits atomically or fails; `commit_ok = false`
injects a failure of `db.commit()` after all checks and session-local
writes, which the endpoint's generic handler turns into a rollback.  The
function returns the durable state alongside the HTTP outcome, so "no
mutation" is the literal equality of the returned state with the input. -/
def create_booking_endpoint (db : DBState) (booking : BookingCreate) (user_id : Nat)
    (commit_ok : Bool) : DBState × Except Err Booking :=
  match create_booking db booking user_id with
  | .error (.valueError msg) => (db, .error (.httpException 400 msg))
  | .error _ => (db, .error (.httpException 500 "Booking failed. Please try again."))
  | .ok (db1, b) =>
    if commit_ok then (db1, .ok b)
    else (db, .error (.httpException 500 "Booking failed. Please try again."))

/-- `process_payment` (`app/api/payments.py` lines 228-325).  Finds the
booking by id and owner (404 otherwise), refuses a second payment for the
same booking (400), then runs the `if/elif` chain on the method: for
WALLET / CREDIT_CARD / UPI it checks the corresponding balance against
`booking.total_amount`, deducts exactly that stored amount and records a
debit transaction; a DEBIT_CARD request matches none of the branches, so
no balance is checked or debited.  In every surviving case it then
inserts a completed `Payment` whose `amount` is `booking.total_amount`
and commits. -/
def process_payment (db : DBState) (payment_data : PaymentCreate) (user_id : Nat) :
    Except Err (DBState × Payment) :=
  match db.bookings.find? (fun b => b.id == payment_data.booking_id && b.user_id == user_id) with
  | none => .error (.httpException 404 "Booking not found")
  | some booking =>
    match db.payments.find? (fun p => p.booking_id == booking.id) with
    | some _ => .error (.httpException 400 "Payment already processed for this booking")
    | none =>
      let charged : Except Err DBState :=
        match payment_data.payment_method with
        | PaymentMethod.wallet =>
          match db.wallets.find? (fun w => w.user_id == user_id) with
          | none => .error (.httpException 400 "Insufficient wallet balance")
          | some wallet =>
            if wallet.balance < booking.total_amount then
              .error (.httpException 400 "Insufficient wallet balance")
            else
              .ok { db with
                wallets := updateFirst (fun w => w.user_id == user_id)
                  (fun w => { w with balance := w.balance - booking.total_amount }) db.wallets
                wallet_transactions := db.wallet_transactions ++
                  [{ owner_id := wallet.id, transaction_type := "debit",
                     amount := booking.total_amount }] }
        | PaymentMethod.credit_card =>
          match payment_data.card_id with
          | none => .error (.httpException 400 "Card ID required for credit card payment")
          | some cid =>
            match db.credit_cards.find? (fun c => c.id == cid && c.user_id == user_id) with
            | none => .error (.httpException 404 "Credit card not found")
            | some card =>
              if !card.is_active then
                .error (.httpException 404 "Credit card not found")
              else if card.balance < booking.total_amount then
                .error (.httpException 400 "Insufficient card balance")
              else
                .ok { db with
                  credit_cards := updateFirst (fun c => c.id == cid && c.user_id == user_id)
                    (fun c => { c with balance := c.balance - booking.total_amount })
                    db.credit_cards
                  card_transactions := db.card_transactions ++
                    [{ owner_id := card.id, transaction_type := "debit",
                       amount := booking.total_amount }] }
        | PaymentMethod.debit_card =>
          -- no `elif` branch in the source matches DEBIT_CARD: the chain
          -- falls through with the session untouched
          .ok db
        | PaymentMethod.upi =>
          match payment_data.upi_id with
          | none => .error (.httpException 400 "UPI ID required for UPI payment")
          | some uid =>
            match db.upi_ids.find? (fun u => u.id == uid && u.user_id == user_id) with
            | none => .error (.httpException 404 "UPI ID not found")
            | some upi =>
              if !upi.is_active then
                .error (.httpException 404 "UPI ID not found")
              else if upi.balance < booking.total_amount then
                .error (.httpException 400 "Insufficient UPI balance")
              else
                .ok { db with
                  upi_ids := updateFirst (fun u => u.id == uid && u.user_id == user_id)
                    (fun u => { u with balance := u.balance - booking.total_amount }) db.upi_ids
                  upi_transactions := db.upi_transactions ++
                    [{ owner_id := upi.id, transaction_type := "debit",
                       amount := booking.total_amount }] }
      match charged with
      | .error e => .error e
      | .ok db1 =>
        let payment : Payment :=
          { booking_id := booking.id
            user_id := user_id
            amount := booking.total_amount
            payment_method := payment_data.payment_method }
        .ok ({ db1 with payments := db1.payments ++ [payment] }, payment)

/-- `RouteService.create_schedules_for_route` (`app/services/__init__.py`
lines 186-213), the per-day schedule row it inserts: a fresh schedule for
a route starts with `available_seats := route.train.total_seats`. -/
def newScheduleForRoute (sid : Nat) (route : Route) (train : Train) : TrainSchedule :=
  { id := sid, route_id := route.id, available_seats := (train.total_seats : Int) }

/-- A database holding one train, one route on it, and one freshly created
schedule (as `create_schedules_for_route` leaves it), and nothing else:
the "one Schedule whose `available_seats` starts at `total_capacity`"
setting of the invariant claims. -/
def initState (train : Train) (route : Route) (sid : Nat) : DBState :=
  { trains := [train]
    routes := [route]
    schedules := [newScheduleForRoute sid route train]
    bookings := []
    passengers := []
    refund_requests := []
    wallets := []
    credit_cards := []
    upi_ids := []
    payments := []
    wallet_transactions := []
    card_transactions := []
    upi_transactions := []
    nextBookingId := 1 }

/-- One client-visible operation against the booking service: a reserve
(`BookingService.create_booking`) or a release
(`BookingService.cancel_booking_with_refund`). -/
inductive Op
  | reserve (booking : BookingCreate) (user_id : Nat)
  | release (booking_id : Nat) (user_id : Nat)
deriving DecidableEq, Repr

/-- Execute one operation; a raised exception leaves the durable state
unchanged (nothing was committed). -/
def applyOp (db : DBState) : Op → DBState
  | Op.reserve booking uid =>
    match create_booking db booking uid with
    | .ok (db1, _) => db1
    | .error _ => db
  | Op.release bid uid =>
    match cancel_booking_with_refund db bid uid with
    | .ok (db1, _) => db1
    | .error _ => db

/-- Execute a sequence of completed reserve/release operations. -/
def runOps (db : DBState) (ops : List Op) : DBState :=
  ops.foldl applyOp db

/-- Total seats held by bookings with status `confirmed` on schedule `sid`. -/
def confirmedSeats (sid : Nat) : List Booking → Int
  | [] => 0
  | b :: bs =>
    (if b.schedule_id = sid ∧ b.status = BookingStatus.confirmed
      then (b.passenger_count : Int) else 0) + confirmedSeats sid bs

/-- Run a batch of reserve calls through
`BookingRepository.create_booking_with_seat_lock` one after the other —
the serial order in which the `with_for_update` row lock admits them —
collecting each call's outcome. -/
def runSeatLockReserves (db : DBState) :
    List (BookingCreate × Nat) → DBState × List (Except Err Booking)
  | [] => (db, [])
  | (booking_data, uid) :: rest =>
    match create_booking_with_seat_lock db booking_data uid with
    | .ok (db1, b) =>
      let out := runSeatLockReserves db1 rest
      (out.1, .ok b :: out.2)
    | .error e =>
      let out := runSeatLockReserves db rest
      (out.1, .error e :: out.2)

/-- Did a reserve call succeed? -/
def isOkResult : Except Err Booking → Bool
  | .ok _ => true
  | .error _ => false

/-- Did a reserve call fail with `InsufficientSeatsError`? -/
def isInsufficientSeats : Except Err Booking → Bool
  | .error (.insufficientSeatsError _ _) => true
  | _ => false

/-- Invariant of a database holding exactly one schedule, with id `sid` and
capacity `total`: the seat counter is non-negative, the counter plus the
seats of all confirmed bookings equals the capacity, and every booking row
references that schedule. -/
def SchedInv (sid : Nat) (total : Int) (db : DBState) : Prop :=
  (∃ s, db.schedules = [s] ∧ s.id = sid ∧ 0 ≤ s.available_seats ∧
    s.available_seats + confirmedSeats sid db.bookings = total) ∧
  ∀ b ∈ db.bookings, b.schedule_id = sid

/-- Sample train for concrete instantiations: 50 seats. -/
def sampleTrain : Train := ⟨1, 50⟩

/-- Sample route for concrete instantiations. -/
def sampleRoute : Route := ⟨2, 1, 100, 300⟩

/-- Sample database: one 50-seat schedule (id 5), freshly created. -/
def sampleState : DBState := initState sampleTrain sampleRoute 5

/-- A sample passenger request item. -/
def cexPassenger : PassengerCreate := ⟨"p", 30, Gender.male⟩

/-- A confirmed 3-seat booking row, as a successful reserve records it. -/
def sampleBooking : Booking :=
  { id := 1, user_id := 7, schedule_id := 5, passenger_count := 3,
    total_amount := 300, status := BookingStatus.confirmed }

/-- The sample schedule after a 3-seat reserve: 47 seats left. -/
def sampleSchedule47 : TrainSchedule := { id := 5, route_id := 2, available_seats := 47 }

/-- The sample database after a successful 3-seat reserve. -/
def sampleStateAfterReserve : DBState :=
  { sampleState with bookings := [sampleBooking], schedules := [sampleSchedule47] }

/-- The post-reserve sample database with a wallet holding 1000. -/
def sampleWalletState : DBState :=
  { sampleStateAfterReserve with wallets := [{ id := 9, user_id := 7, balance := 1000 }] }

/-- The completed `Payment` row a DEBIT_CARD `process_payment` call inserts
for the sample booking. -/
def debitPayment : Payment :=
  { booking_id := 1, user_id := 7, amount := 300,
    payment_method := PaymentMethod.debit_card }

/-- Train with 10 seats for the lost-update scenario. -/
def tenSeatTrain : Train := ⟨1, 10⟩

/-- Database with one 10-seat schedule (id 5), `available_seats = 10`. -/
def tenSeatState : DBState := initState tenSeatTrain sampleRoute 5

/-- Fifteen racing single-seat reserve requests against schedule 5. -/
def fifteenRequests : List (BookingCreate × Nat) :=
  List.replicate 15 (⟨5, [cexPassenger]⟩, 7)

/-- Counterexample train: 3 seats. -/
def cexTrain : Train := ⟨1, 3⟩

/-- Counterexample route. -/
def cexRoute : Route := ⟨2, 1, 100, 300⟩

/-- Counterexample database: one schedule (id 5) with 3 available seats. -/
def cexState : DBState := initState cexTrain cexRoute 5

/-! ### Helper lemmas about `updateFirst`, `List.find?` and `confirmedSeats` -/

theorem updateFirst_cons_pos {p : α → Bool} {f : α → α} {x : α} {xs : List α}
    (h : p x = true) : updateFirst p f (x :: xs) = f x :: xs := by
  simp [updateFirst, h]

theorem updateFirst_cons_neg {p : α → Bool} {f : α → α} {x : α} {xs : List α}
    (h : p x = false) : updateFirst p f (x :: xs) = x :: updateFirst p f xs := by
  simp [updateFirst, h]

/-- If `find?` located `a` and the update keeps `a` satisfying the predicate,
then `find?` after `updateFirst` returns the updated row. -/
theorem find?_updateFirst_self {p : α → Bool} {f : α → α} {l : List α} {a : α}
    (h : l.find? p = some a) (hp : p (f a) = true) :
    (updateFirst p f l).find? p = some (f a) := by
  induction l with
  | nil => simp at h
  | cons x xs ih =>
    by_cases hx : p x = true
    · rw [List.find?_cons_of_pos _ hx] at h
      injection h with hxa
      subst hxa
      rw [updateFirst_cons_pos hx, List.find?_cons_of_pos _ hp]
    · have hx' : p x = false := by simpa using hx
      rw [List.find?_cons_of_neg _ (by simp [hx'])] at h
      rw [updateFirst_cons_neg hx', List.find?_cons_of_neg _ (by simp [hx'])]
      exact ih h

/-- `updateFirst` preserves a property `q` that the update function preserves. -/
theorem updateFirst_forall {p : α → Bool} {f : α → α} {q : α → Prop} {l : List α}
    (hl : ∀ x ∈ l, q x) (hf : ∀ x, q x → q (f x)) :
    ∀ x ∈ updateFirst p f l, q x := by
  induction l with
  | nil => simp [updateFirst]
  | cons y ys ih =>
    intro x hx
    by_cases hy : p y = true
    · rw [updateFirst_cons_pos hy] at hx
      rcases List.mem_cons.mp hx with hx | hx
      · subst hx
        exact hf y (hl y (List.mem_cons_self y ys))
      · exact hl x (List.mem_cons_of_mem y hx)
    · have hy' : p y = false := by simpa using hy
      rw [updateFirst_cons_neg hy'] at hx
      rcases List.mem_cons.mp hx with hx | hx
      · subst hx
        exact hl x (List.mem_cons_self x ys)
      · exact ih (fun z hz => hl z (List.mem_cons_of_mem y hz)) x hx

theorem confirmedSeats_nonneg (sid : Nat) (bs : List Booking) :
    0 ≤ confirmedSeats sid bs := by
  induction bs with
  | nil => simp [confirmedSeats]
  | cons b bs ih =>
    simp only [confirmedSeats]
    have : (0 : Int) ≤ (if b.schedule_id = sid ∧ b.status = BookingStatus.confirmed
        then (b.passenger_count : Int) else 0) := by
      split
      · exact Int.ofNat_nonneg _
      · exact le_refl 0
    omega

theorem confirmedSeats_append (sid : Nat) (bs : List Booking) (b : Booking) :
    confirmedSeats sid (bs ++ [b]) = confirmedSeats sid bs +
      (if b.schedule_id = sid ∧ b.status = BookingStatus.confirmed
        then (b.passenger_count : Int) else 0) := by
  induction bs with
  | nil => simp [confirmedSeats]
  | cons x xs ih =>
    simp only [List.cons_append, confirmedSeats, List.append_eq]
    rw [ih]
    ring

/-- Cancelling the first booking matched by `p` removes exactly its seat
contribution from the confirmed total. -/
theorem confirmedSeats_updateFirst_cancel (sid : Nat) {p : Booking → Bool}
    {bs : List Booking} {b : Booking} (h : bs.find? p = some b) :
    confirmedSeats sid
      (updateFirst p (fun x => { x with status := BookingStatus.cancelled }) bs) =
    confirmedSeats sid bs -
      (if b.schedule_id = sid ∧ b.status = BookingStatus.confirmed
        then (b.passenger_count : Int) else 0) := by
  induction bs with
  | nil => simp at h
  | cons x xs ih =>
    by_cases hx : p x = true
    · rw [List.find?_cons_of_pos _ hx] at h
      injection h with hxb
      subst hxb
      rw [updateFirst_cons_pos hx]
      simp only [confirmedSeats]
      have h2 : (if ({ x with status := BookingStatus.cancelled } : Booking).schedule_id = sid ∧
          ({ x with status := BookingStatus.cancelled } : Booking).status = BookingStatus.confirmed
          then (({ x with status := BookingStatus.cancelled } : Booking).passenger_count : Int)
          else 0) = 0 := by simp
      rw [h2]
      ring
    · have hx' : p x = false := by simpa using hx
      rw [List.find?_cons_of_neg _ (by simp [hx'])] at h
      rw [updateFirst_cons_neg hx']
      simp only [confirmedSeats, ih h]
      ring

/-- A confirmed member's seat count is at most the confirmed total. -/
theorem confirmedSeats_member_le (sid : Nat) {bs : List Booking} {b : Booking}
    (hmem : b ∈ bs) (hsid : b.schedule_id = sid)
    (hst : b.status = BookingStatus.confirmed) :
    (b.passenger_count : Int) ≤ confirmedSeats sid bs := by
  induction bs with
  | nil => simp at hmem
  | cons x xs ih =>
    rcases List.mem_cons.mp hmem with hmem | hmem
    · subst hmem
      simp only [confirmedSeats, if_pos (And.intro hsid hst)]
      have := confirmedSeats_nonneg sid xs
      omega
    · have h1 := ih hmem
      simp only [confirmedSeats]
      have : (0 : Int) ≤ (if x.schedule_id = sid ∧ x.status = BookingStatus.confirmed
          then (x.passenger_count : Int) else 0) := by
        split
        · exact Int.ofNat_nonneg _
        · exact le_refl 0
      omega

/-! ### The per-schedule inventory invariant -/

/-- Every single completed `create_booking` / `cancel_booking_with_refund`
operation preserves the inventory invariant. -/
theorem schedInv_applyOp {sid : Nat} {total : Int} {db : DBState}
    (h : SchedInv sid total db) (op : Op) : SchedInv sid total (applyOp db op) := by
  obtain ⟨⟨s, hsched, hid, hpos, hcons⟩, hmem⟩ := h
  cases op with
  | reserve bk uid =>
    simp only [applyOp]
    by_cases hp : (s.id == bk.schedule_id) = true
    · have hfind : db.schedules.find? (fun t => t.id == bk.schedule_id) = some s := by
        rw [hsched]
        exact List.find?_cons_of_pos _ hp
      have hsid_bk : bk.schedule_id = sid := by
        have h1 : s.id = bk.schedule_id := by simpa using hp
        omega
      by_cases hav : s.available_seats < (bk.passengers.length : Int)
      · simp only [create_booking, hfind, if_pos hav]
        exact ⟨⟨s, hsched, hid, hpos, hcons⟩, hmem⟩
      · rcases hroute : db.routes.find? (fun r => r.id == s.route_id) with _ | r
        · simp only [create_booking, hfind, if_neg hav, hroute]
          exact ⟨⟨s, hsched, hid, hpos, hcons⟩, hmem⟩
        · simp only [create_booking, hfind, if_neg hav, hroute]
          constructor
          · refine ⟨{ s with available_seats :=
              s.available_seats - (bk.passengers.length : Int) }, ?_, hid, ?_, ?_⟩
            · dsimp only
              rw [hsched]
              simp [updateFirst, hp]
            · dsimp only
              omega
            · dsimp only
              rw [confirmedSeats_append]
              dsimp only
              rw [if_pos (And.intro hsid_bk rfl)]
              omega
          · dsimp only
            intro b hb
            rcases List.mem_append.mp hb with hb | hb
            · exact hmem b hb
            · simp only [List.mem_singleton] at hb
              subst hb
              exact hsid_bk
    · have hp' : (s.id == bk.schedule_id) = false := by simpa using hp
      have hfind : db.schedules.find? (fun t => t.id == bk.schedule_id) = none := by
        rw [hsched, List.find?_cons_of_neg _ (by simp [hp']), List.find?_nil]
      simp only [create_booking, hfind]
      exact ⟨⟨s, hsched, hid, hpos, hcons⟩, hmem⟩
  | release bid uid =>
    simp only [applyOp]
    rcases hfb : db.bookings.find? (fun b => b.id == bid && b.user_id == uid) with _ | b
    · simp only [cancel_booking_with_refund, hfb]
      exact ⟨⟨s, hsched, hid, hpos, hcons⟩, hmem⟩
    · by_cases hst : b.status = BookingStatus.confirmed
      · have hbmem : b ∈ db.bookings := List.mem_of_find?_eq_some hfb
        have hbsid : b.schedule_id = sid := hmem b hbmem
        have hps : (s.id == b.schedule_id) = true := by
          simp [hid, hbsid]
        have hfs : db.schedules.find? (fun t => t.id == b.schedule_id) = some s := by
          rw [hsched]
          exact List.find?_cons_of_pos _ hps
        have hnotne : ¬ (b.status ≠ BookingStatus.confirmed) := by simp [hst]
        simp only [cancel_booking_with_refund, hfb, if_neg hnotne, hfs]
        constructor
        · refine ⟨{ s with available_seats :=
            s.available_seats + (b.passenger_count : Int) }, ?_, hid, ?_, ?_⟩
          · dsimp only
            rw [hsched]
            simp [updateFirst, hps]
          · dsimp only
            omega
          · dsimp only
            rw [confirmedSeats_updateFirst_cancel sid hfb]
            rw [if_pos (And.intro hbsid hst)]
            omega
        · dsimp only
          intro x hx
          exact updateFirst_forall (f := fun y => { y with status := BookingStatus.cancelled })
            hmem (fun z hz => hz) x hx
      · simp only [cancel_booking_with_refund, hfb, if_pos hst]
        exact ⟨⟨s, hsched, hid, hpos, hcons⟩, hmem⟩

/-- The invariant is preserved by every sequence of completed operations. -/
theorem schedInv_runOps {sid : Nat} {total : Int} {db : DBState}
    (h : SchedInv sid total db) (ops : List Op) : SchedInv sid total (runOps db ops) := by
  induction ops generalizing db with
  | nil => simpa [runOps] using h
  | cons op ops ih =>
    rw [runOps, List.foldl_cons]
    exact ih (schedInv_applyOp h op)

/-- A freshly created schedule (`create_schedules_for_route`) satisfies the
invariant with capacity `train.total_seats`. -/
theorem schedInv_initState (train : Train) (route : Route) (sid : Nat) :
    SchedInv sid (train.total_seats : Int) (initState train route sid) := by
  refine ⟨⟨newScheduleForRoute sid route train, rfl, rfl, Int.ofNat_nonneg _, ?_⟩, ?_⟩
  · simp [newScheduleForRoute, confirmedSeats, initState]
  · intro b hb
    simp [initState] at hb

/-! ### Claim theorems -/

/-- Claim C1 — Capacity invariant: for every sequence of reserve
(`create_booking`) and release (`cancel_booking_with_refund`) operations
against one schedule whose `available_seats` starts at `total_capacity`
(`route.train.total_seats`, as `create_schedules_for_route` initializes
it), after every operation `0 ≤ available_seats ≤ total_capacity` holds.
Quantifying over every operation list covers every prefix, hence the state
after every operation. -/
theorem capacity_invariant_holds (train : Train) (route : Route) (sid : Nat)
    (ops : List Op) :
    ∃ s, (runOps (initState train route sid) ops).schedules = [s] ∧
      0 ≤ s.available_seats ∧ s.available_seats ≤ (train.total_seats : Int) := by
  obtain ⟨⟨s, hsched, hid, hpos, hcons⟩, hmem⟩ :=
    schedInv_runOps (schedInv_initState train route sid) ops
  refine ⟨s, hsched, hpos, ?_⟩
  have h1 := confirmedSeats_nonneg sid (runOps (initState train route sid) ops).bookings
  omega

/-- Claim C2 — Conservation: after any sequence of completed reserve and
release operations on one schedule, `available_seats` plus the sum of
`passenger_count` over all bookings with status `confirmed` on that
schedule equals `total_capacity`. -/
theorem conservation_invariant_holds (train : Train) (route : Route) (sid : Nat)
    (ops : List Op) :
    ∃ s, (runOps (initState train route sid) ops).schedules = [s] ∧
      s.available_seats +
        confirmedSeats sid (runOps (initState train route sid) ops).bookings =
        (train.total_seats : Int) := by
  obtain ⟨⟨s, hsched, hid, hpos, hcons⟩, hmem⟩ :=
    schedInv_runOps (schedInv_initState train route sid) ops
  exact ⟨s, hsched, hcons⟩

/-- Claim C3 — Reserve success postcondition: a reserve call on an existing
schedule with `available_seats ≥ seat_count` (and `seat_count ≥ 1`) returns
a booking whose `passenger_count` equals the request's passenger count and
whose status is `confirmed`, and decrements the schedule's
`available_seats` by exactly that amount — through both the synchronous
service path (`BookingService.create_booking`) and the locked repository
path (`BookingRepository.create_booking_with_seat_lock`). -/
theorem reserve_success_postcondition
    (db : DBState) (bk : BookingCreate) (uid : Nat) (s : TrainSchedule) (r : Route)
    (hs : db.schedules.find? (fun t => t.id == bk.schedule_id) = some s)
    (hr : db.routes.find? (fun t => t.id == s.route_id) = some r)
    (hk : 1 ≤ bk.passengers.length)
    (ha : (bk.passengers.length : Int) ≤ s.available_seats) :
    (∃ db1 b, create_booking db bk uid = Except.ok (db1, b) ∧
      b.passenger_count = bk.passengers.length ∧
      b.status = BookingStatus.confirmed ∧
      ∃ s1, db1.schedules.find? (fun t => t.id == bk.schedule_id) = some s1 ∧
        s1.available_seats = s.available_seats - (bk.passengers.length : Int)) ∧
    (∃ db2 b2, create_booking_with_seat_lock db bk uid = Except.ok (db2, b2) ∧
      b2.passenger_count = bk.passengers.length ∧
      b2.status = BookingStatus.confirmed ∧
      ∃ s2, db2.schedules.find? (fun t => t.id == bk.schedule_id) = some s2 ∧
        s2.available_seats = s.available_seats - (bk.passengers.length : Int)) := by
  have hav : ¬ s.available_seats < (bk.passengers.length : Int) := by omega
  have hps : (s.id == bk.schedule_id) = true := by
    have h2 := List.find?_some hs
    exact h2
  constructor
  · simp only [create_booking, hs, if_neg hav, hr]
    refine ⟨_, _, rfl, rfl, rfl, ?_⟩
    dsimp only
    exact ⟨_, find?_updateFirst_self hs hps, rfl⟩
  · simp only [create_booking_with_seat_lock, hs, if_neg hav, hr]
    refine ⟨_, _, rfl, rfl, rfl, ?_⟩
    dsimp only
    exact ⟨_, find?_updateFirst_self hs hps, rfl⟩

/-- Concrete instantiation of `reserve_success_postcondition`: reserving 3
seats on the 50-seat sample schedule. -/
theorem reserve_success_postcondition_witness :
    (∃ db1 b,
      create_booking (initState ⟨1, 50⟩ ⟨2, 1, 100, 300⟩ 5)
        ⟨5, [⟨"a", 30, Gender.male⟩, ⟨"b", 31, Gender.female⟩, ⟨"c", 5, Gender.other⟩]⟩ 7 =
        Except.ok (db1, b) ∧
      b.passenger_count = 3 ∧
      b.status = BookingStatus.confirmed ∧
      ∃ s1, db1.schedules.find? (fun t => t.id == 5) = some s1 ∧
        s1.available_seats = 47) ∧
    (∃ db2 b2,
      create_booking_with_seat_lock (initState ⟨1, 50⟩ ⟨2, 1, 100, 300⟩ 5)
        ⟨5, [⟨"a", 30, Gender.male⟩, ⟨"b", 31, Gender.female⟩, ⟨"c", 5, Gender.other⟩]⟩ 7 =
        Except.ok (db2, b2) ∧
      b2.passenger_count = 3 ∧
      b2.status = BookingStatus.confirmed ∧
      ∃ s2, db2.schedules.find? (fun t => t.id == 5) = some s2 ∧
        s2.available_seats = 47) := by
  have h := reserve_success_postcondition (initState ⟨1, 50⟩ ⟨2, 1, 100, 300⟩ 5)
    ⟨5, [⟨"a", 30, Gender.male⟩, ⟨"b", 31, Gender.female⟩, ⟨"c", 5, Gender.other⟩]⟩ 7
    (newScheduleForRoute 5 ⟨2, 1, 100, 300⟩ ⟨1, 50⟩) ⟨2, 1, 100, 300⟩
    (by decide) (by decide) (by decide) (by decide)
  simpa [newScheduleForRoute] using h

/-- Claim C6 — Idempotent-safe cancellation: for a confirmed booking,
calling release twice on the same booking id yields one success and one
AlreadyCancelled-style failure (`ValueError("Only confirmed bookings can
be cancelled")`); the second call returns an error, hence commits nothing,
so `available_seats` increases by the booking's `passenger_count` exactly
once across the two calls. -/
theorem release_twice_idempotent_safe
    (db : DBState) (bid uid : Nat) (b : Booking) (s : TrainSchedule)
    (hfb : db.bookings.find? (fun x => x.id == bid && x.user_id == uid) = some b)
    (hst : b.status = BookingStatus.confirmed)
    (hs : db.schedules.find? (fun t => t.id == b.schedule_id) = some s) :
    ∃ db1 amt, cancel_booking_with_refund db bid uid = Except.ok (db1, amt) ∧
      (∃ s1, db1.schedules.find? (fun t => t.id == b.schedule_id) = some s1 ∧
        s1.available_seats = s.available_seats + (b.passenger_count : Int)) ∧
      cancel_booking_with_refund db1 bid uid =
        Except.error (Err.valueError "Only confirmed bookings can be cancelled") := by
  have hnotne : ¬ (b.status ≠ BookingStatus.confirmed) := by simp [hst]
  have hpss : (s.id == b.schedule_id) = true := by
    have h2 := List.find?_some hs
    exact h2
  have hpb : (b.id == bid && b.user_id == uid) = true := by
    have h2 := List.find?_some hfb
    exact h2
  simp only [cancel_booking_with_refund, hfb, if_neg hnotne, hs]
  refine ⟨_, _, rfl, ?_, ?_⟩
  · dsimp only
    exact ⟨_, find?_updateFirst_self hs hpss, rfl⟩
  · dsimp only
    have hfb2 : (updateFirst (fun x => x.id == bid && x.user_id == uid)
        (fun x => { x with status := BookingStatus.cancelled }) db.bookings).find?
        (fun x => x.id == bid && x.user_id == uid) =
        some { b with status := BookingStatus.cancelled } :=
      find?_updateFirst_self hfb hpb
    simp [cancel_booking_with_refund, hfb2]

/-- Concrete instantiation of `release_twice_idempotent_safe`: after a
3-seat reserve, release the booking twice. -/
theorem release_twice_idempotent_safe_witness :
    ∃ db1 amt,
      cancel_booking_with_refund sampleStateAfterReserve 1 7 = Except.ok (db1, amt) ∧
      (∃ s1, db1.schedules.find? (fun t => t.id == 5) = some s1 ∧
        s1.available_seats = 50) ∧
      cancel_booking_with_refund db1 1 7 =
        Except.error (Err.valueError "Only confirmed bookings can be cancelled") := by
  have h := release_twice_idempotent_safe sampleStateAfterReserve 1 7
    sampleBooking sampleSchedule47 (by decide) (by decide) (by decide)
  simpa [sampleBooking, sampleSchedule47] using h

/-- Claim C10 — Zero-seat reservation edge case: a `create_booking` call
with an empty passengers list on any existing schedule with
`available_seats ≥ 0` succeeds, creating a confirmed booking with
`passenger_count = 0` and `total_amount = 0` and leaving `available_seats`
unchanged; neither path enforces `seat_count ≥ 1`. -/
theorem zero_passenger_booking
    (db : DBState) (bk : BookingCreate) (uid : Nat) (s : TrainSchedule) (r : Route)
    (hp0 : bk.passengers = [])
    (hs : db.schedules.find? (fun t => t.id == bk.schedule_id) = some s)
    (hr : db.routes.find? (fun t => t.id == s.route_id) = some r)
    (ha : 0 ≤ s.available_seats) :
    (∃ db1 b, create_booking db bk uid = Except.ok (db1, b) ∧
      b.passenger_count = 0 ∧ b.total_amount = 0 ∧
      b.status = BookingStatus.confirmed ∧
      ∃ s1, db1.schedules.find? (fun t => t.id == bk.schedule_id) = some s1 ∧
        s1.available_seats = s.available_seats) ∧
    (∃ db2 b2, create_booking_with_seat_lock db bk uid = Except.ok (db2, b2) ∧
      b2.passenger_count = 0 ∧ b2.total_amount = 0) := by
  have hav : ¬ s.available_seats < (bk.passengers.length : Int) := by
    rw [hp0]
    simpa using ha
  have hps : (s.id == bk.schedule_id) = true := by
    have h2 := List.find?_some hs
    exact h2
  constructor
  · simp only [create_booking, hs, if_neg hav, hr]
    refine ⟨_, _, rfl, ?_, ?_, rfl, ?_⟩
    · simp [hp0]
    · dsimp only
      rw [hp0]
      simp
    · refine ⟨_, find?_updateFirst_self hs hps, ?_⟩
      dsimp only
      rw [hp0]
      simp
  · simp only [create_booking_with_seat_lock, hs, if_neg hav, hr]
    refine ⟨_, _, rfl, ?_, ?_⟩
    · simp [hp0]
    · dsimp only
      rw [hp0]
      simp

/-- Concrete instantiation of `zero_passenger_booking`: an empty passenger
list against the 50-seat sample schedule. -/
theorem zero_passenger_booking_witness :
    (∃ db1 b,
      create_booking (initState ⟨1, 50⟩ ⟨2, 1, 100, 300⟩ 5) ⟨5, []⟩ 7 =
        Except.ok (db1, b) ∧
      b.passenger_count = 0 ∧ b.total_amount = 0 ∧
      b.status = BookingStatus.confirmed ∧
      ∃ s1, db1.schedules.find? (fun t => t.id == 5) = some s1 ∧
        s1.available_seats = 50) ∧
    (∃ db2 b2,
      create_booking_with_seat_lock (initState ⟨1, 50⟩ ⟨2, 1, 100, 300⟩ 5) ⟨5, []⟩ 7 =
        Except.ok (db2, b2) ∧
      b2.passenger_count = 0 ∧ b2.total_amount = 0) := by
  have h := zero_passenger_booking (initState ⟨1, 50⟩ ⟨2, 1, 100, 300⟩ 5) ⟨5, []⟩ 7
    (newScheduleForRoute 5 ⟨2, 1, 100, 300⟩ ⟨1, 50⟩) ⟨2, 1, 100, 300⟩
    (by decide) (by decide) (by decide) (by decide)
  simpa [newScheduleForRoute] using h

/-- Claim C4, counterexample: a reserve call through the service path
(`BookingService.create_booking`, the implementation wired to the
`POST /bookings/` endpoint) on a schedule with 3 available seats and 5
requested does fail, but with the fixed `ValueError("Insufficient seats
available")`, which is not an `InsufficientSeatsError{available, requested}`
and carries neither count. -/
theorem service_insufficient_error_has_no_counts :
    create_booking cexState ⟨5, List.replicate 5 cexPassenger⟩ 7 =
      Except.error (Err.valueError "Insufficient seats available") ∧
    Err.valueError "Insufficient seats available" ≠ Err.insufficientSeatsError 3 5 := by
  constructor
  · rfl
  · decide

/-- Claim C4 (amended) — through the repository path
(`create_booking_with_seat_lock`), a reserve on an existing schedule with
`available_seats < seat_count` fails with
`InsufficientSeatsError(available, requested)` carrying both counts;
through the service path it fails with the count-free
`ValueError("Insufficient seats available")`.  Both results are errors, so
neither path commits any mutation: the durable state stays the input
state, with `available_seats` unchanged and no booking or passenger row
created. -/
theorem reserve_insufficient_capacity
    (db : DBState) (bk : BookingCreate) (uid : Nat) (s : TrainSchedule)
    (hs : db.schedules.find? (fun t => t.id == bk.schedule_id) = some s)
    (hav : s.available_seats < (bk.passengers.length : Int)) :
    create_booking_with_seat_lock db bk uid =
      Except.error (Err.insufficientSeatsError s.available_seats bk.passengers.length) ∧
    create_booking db bk uid =
      Except.error (Err.valueError "Insufficient seats available") := by
  constructor
  · simp only [create_booking_with_seat_lock, hs, if_pos hav]
  · simp only [create_booking, hs, if_pos hav]

/-- Concrete instantiation of `reserve_insufficient_capacity`: requesting
5 seats with 3 available. -/
theorem reserve_insufficient_capacity_witness :
    create_booking_with_seat_lock cexState ⟨5, List.replicate 5 cexPassenger⟩ 7 =
      Except.error (Err.insufficientSeatsError 3 5) ∧
    create_booking cexState ⟨5, List.replicate 5 cexPassenger⟩ 7 =
      Except.error (Err.valueError "Insufficient seats available") := by
  have h := reserve_insufficient_capacity cexState ⟨5, List.replicate 5 cexPassenger⟩ 7
    (newScheduleForRoute 5 cexRoute cexTrain) (by decide) (by decide)
  simpa [newScheduleForRoute, cexRoute, cexTrain] using h

/-- Claim C5, counterexample: through the service path wired to the API, a
reserve call whose `schedule_id` (99) does not resolve fails with exactly
the same `ValueError("Insufficient seats available")` value that an
insufficient-capacity failure produces — the two outcomes are not
distinguishable by the caller, and neither is a `NotFoundError`. -/
theorem service_not_found_error_indistinguishable :
    cexState.schedules.find? (fun t => t.id == 99) = none ∧
    create_booking cexState ⟨99, [cexPassenger]⟩ 7 =
      Except.error (Err.valueError "Insufficient seats available") ∧
    create_booking cexState ⟨5, List.replicate 5 cexPassenger⟩ 7 =
      Except.error (Err.valueError "Insufficient seats available") ∧
    Err.valueError "Insufficient seats available" ≠ Err.notFoundError "TrainSchedule" 99 := by
  refine ⟨rfl, rfl, rfl, by decide⟩

/-- Claim C5 (amended) — through the repository path, an unresolvable
`schedule_id` fails with `NotFoundError("TrainSchedule", schedule_id)`,
which is distinguishable from every `InsufficientSeatsError`; through the
service path it fails with the same `ValueError("Insufficient seats
available")` as the insufficient-capacity case.  Both results are errors,
so neither path commits any mutation. -/
theorem reserve_schedule_not_found
    (db : DBState) (bk : BookingCreate) (uid : Nat)
    (hn : db.schedules.find? (fun t => t.id == bk.schedule_id) = none) :
    create_booking_with_seat_lock db bk uid =
      Except.error (Err.notFoundError "TrainSchedule" bk.schedule_id) ∧
    (∀ a k, Err.notFoundError "TrainSchedule" bk.schedule_id ≠
      Err.insufficientSeatsError a k) ∧
    create_booking db bk uid =
      Except.error (Err.valueError "Insufficient seats available") := by
  refine ⟨?_, ?_, ?_⟩
  · simp only [create_booking_with_seat_lock, hn]
  · intro a k h
    exact Err.noConfusion h
  · simp only [create_booking, hn]

/-- Concrete instantiation of `reserve_schedule_not_found`: schedule id 99
does not exist in the sample database. -/
theorem reserve_schedule_not_found_witness :
    create_booking_with_seat_lock cexState ⟨99, [cexPassenger]⟩ 7 =
      Except.error (Err.notFoundError "TrainSchedule" 99) ∧
    (∀ a k, Err.notFoundError "TrainSchedule" 99 ≠ Err.insufficientSeatsError a k) ∧
    create_booking cexState ⟨99, [cexPassenger]⟩ 7 =
      Except.error (Err.valueError "Insufficient seats available") := by
  exact reserve_schedule_not_found cexState ⟨99, [cexPassenger]⟩ 7 (by decide)

/-- Claim C7 — Atomicity under storage failure: if the durable-store commit
fails after the availability check passed, the endpoint answers HTTP 500
and the durable state is literally the pre-request state — the decrement
and the booking insertion are never partially applied. -/
theorem reserve_commit_failure_atomic
    (db : DBState) (bk : BookingCreate) (uid : Nat) (s : TrainSchedule) (r : Route)
    (hs : db.schedules.find? (fun t => t.id == bk.schedule_id) = some s)
    (hr : db.routes.find? (fun t => t.id == s.route_id) = some r)
    (ha : (bk.passengers.length : Int) ≤ s.available_seats) :
    create_booking_endpoint db bk uid false =
      (db, Except.error (Err.httpException 500 "Booking failed. Please try again.")) := by
  have hav : ¬ s.available_seats < (bk.passengers.length : Int) := by omega
  simp [create_booking_endpoint, create_booking, hs, if_neg hav, hr]

/-- Concrete instantiation of `reserve_commit_failure_atomic`: an injected
commit failure on a 3-seat reserve leaves the 50-seat sample database
untouched. -/
theorem reserve_commit_failure_atomic_witness :
    create_booking_endpoint (initState ⟨1, 50⟩ ⟨2, 1, 100, 300⟩ 5)
      ⟨5, [cexPassenger, cexPassenger, cexPassenger]⟩ 7 false =
      (initState ⟨1, 50⟩ ⟨2, 1, 100, 300⟩ 5,
        Except.error (Err.httpException 500 "Booking failed. Please try again.")) := by
  exact reserve_commit_failure_atomic (initState ⟨1, 50⟩ ⟨2, 1, 100, 300⟩ 5)
    ⟨5, [cexPassenger, cexPassenger, cexPassenger]⟩ 7
    (newScheduleForRoute 5 ⟨2, 1, 100, 300⟩ ⟨1, 50⟩) ⟨2, 1, 100, 300⟩
    (by decide) (by decide) (by decide)

/-- Claim C8, counterexample: `process_payment` run with
`payment_method = DEBIT_CARD` (a value `PaymentCreate` accepts) matches no
branch of the `if/elif` chain, so it charges nothing — the returned state
differs from the input state only in the `payments` table: the only
funding source, a wallet holding 1000, is untouched and no debit
transaction exists — yet it records a completed `Payment` whose `amount`
is the stored `total_amount` of 300.  "Later payment processing charges
exactly that stored total_amount" is therefore false as stated. -/
theorem debit_card_payment_charges_nothing :
    process_payment sampleWalletState ⟨1, PaymentMethod.debit_card, none, none⟩ 7 =
      Except.ok ({ sampleWalletState with payments := [debitPayment] }, debitPayment) ∧
    debitPayment.amount = sampleBooking.total_amount ∧
    sampleBooking.total_amount = 300 ∧
    sampleWalletState.wallets = [{ id := 9, user_id := 7, balance := 1000 }] ∧
    sampleWalletState.wallet_transactions = [] ∧
    sampleWalletState.card_transactions = [] := by
  exact ⟨rfl, rfl, rfl, rfl, rfl, rfl⟩

/-- Claim C8 (amended) — Fare calculation: a successful reserve prices the
booking at the route's `base_fare` (the fare found at the moment of
reserve) times the request's passenger count.  Later payment processing
always records a completed `Payment` whose `amount` is the stored
`total_amount`; for the WALLET, CREDIT_CARD and UPI methods it checks the
corresponding balance and debits it by exactly that stored amount, but
for DEBIT_CARD no branch of the `if/elif` chain matches, so no balance is
checked or debited — the durable state changes only by the inserted
`Payment` row. -/
theorem fare_snapshot_and_payment_charge
    (db db1 dbP : DBState) (bk : BookingCreate) (uid : Nat) (s : TrainSchedule)
    (r : Route) (b : Booking) (pd : PaymentCreate)
    (hs : db.schedules.find? (fun t => t.id == bk.schedule_id) = some s)
    (hr : db.routes.find? (fun t => t.id == s.route_id) = some r)
    (hok : create_booking db bk uid = Except.ok (db1, b))
    (hpb : dbP.bookings.find? (fun x => x.id == pd.booking_id && x.user_id == uid) = some b)
    (hnp : dbP.payments.find? (fun p => p.booking_id == b.id) = none) :
    b.total_amount = r.base_fare * (bk.passengers.length : Int) ∧
    (∀ w, pd.payment_method = PaymentMethod.wallet →
      dbP.wallets.find? (fun x => x.user_id == uid) = some w →
      ¬ w.balance < b.total_amount →
      ∃ dbQ pay, process_payment dbP pd uid = Except.ok (dbQ, pay) ∧
        pay.amount = b.total_amount ∧
        ∃ w1, dbQ.wallets.find? (fun x => x.user_id == uid) = some w1 ∧
          w1.balance = w.balance - b.total_amount) ∧
    (∀ cid c, pd.payment_method = PaymentMethod.credit_card →
      pd.card_id = some cid →
      dbP.credit_cards.find? (fun x => x.id == cid && x.user_id == uid) = some c →
      c.is_active = true →
      ¬ c.balance < b.total_amount →
      ∃ dbQ pay, process_payment dbP pd uid = Except.ok (dbQ, pay) ∧
        pay.amount = b.total_amount ∧
        ∃ c1, dbQ.credit_cards.find? (fun x => x.id == cid && x.user_id == uid) = some c1 ∧
          c1.balance = c.balance - b.total_amount) ∧
    (∀ upd u, pd.payment_method = PaymentMethod.upi →
      pd.upi_id = some upd →
      dbP.upi_ids.find? (fun x => x.id == upd && x.user_id == uid) = some u →
      u.is_active = true →
      ¬ u.balance < b.total_amount →
      ∃ dbQ pay, process_payment dbP pd uid = Except.ok (dbQ, pay) ∧
        pay.amount = b.total_amount ∧
        ∃ u1, dbQ.upi_ids.find? (fun x => x.id == upd && x.user_id == uid) = some u1 ∧
          u1.balance = u.balance - b.total_amount) ∧
    (pd.payment_method = PaymentMethod.debit_card →
      ∃ pay, process_payment dbP pd uid =
        Except.ok ({ dbP with payments := dbP.payments ++ [pay] }, pay) ∧
        pay.amount = b.total_amount) := by
  refine ⟨?_, ?_, ?_, ?_, ?_⟩
  · by_cases hav : s.available_seats < (bk.passengers.length : Int)
    · simp only [create_booking, hs, if_pos hav] at hok
      exact Except.noConfusion hok
    · simp only [create_booking, hs, if_neg hav, hr] at hok
      injection hok with h1
      injection h1 with hdb hb
      rw [← hb]
  · intro w hm hw hwb
    have hpw : (w.user_id == uid) = true := by
      have h2 := List.find?_some hw
      exact h2
    simp only [process_payment, hpb, hnp, hm, hw, if_neg hwb]
    refine ⟨_, _, rfl, rfl, ?_⟩
    dsimp only
    exact ⟨_, find?_updateFirst_self hw hpw, rfl⟩
  · intro cid c hm hcid hcard hact hbal
    have hpc : (c.id == cid && c.user_id == uid) = true := by
      have h2 := List.find?_some hcard
      exact h2
    simp only [process_payment, hpb, hnp, hm, hcid, hcard, hact, Bool.not_true,
      Bool.false_eq_true, if_false, if_neg hbal]
    refine ⟨_, _, rfl, rfl, ?_⟩
    dsimp only
    exact ⟨_, find?_updateFirst_self hcard hpc, rfl⟩
  · intro upd u hm hupd hupi hact hbal
    have hpu : (u.id == upd && u.user_id == uid) = true := by
      have h2 := List.find?_some hupi
      exact h2
    simp only [process_payment, hpb, hnp, hm, hupd, hupi, hact, Bool.not_true,
      Bool.false_eq_true, if_false, if_neg hbal]
    refine ⟨_, _, rfl, rfl, ?_⟩
    dsimp only
    exact ⟨_, find?_updateFirst_self hupi hpu, rfl⟩
  · intro hm
    simp only [process_payment, hpb, hnp, hm]
    exact ⟨_, rfl, rfl⟩

/-- Concrete instantiation of `fare_snapshot_and_payment_charge`: a 3-seat
reserve at fare 100 stores 300; a wallet of 1000 is charged exactly 300,
while a DEBIT_CARD payment of the same booking changes only the payments
table. -/
theorem fare_snapshot_and_payment_charge_witness :
    sampleBooking.total_amount = 100 * ((3 : Nat) : Int) ∧
    (∃ dbQ pay,
      process_payment sampleWalletState ⟨1, PaymentMethod.wallet, none, none⟩ 7 =
        Except.ok (dbQ, pay) ∧
      pay.amount = sampleBooking.total_amount ∧
      ∃ w1, dbQ.wallets.find? (fun x => x.user_id == 7) = some w1 ∧
        w1.balance = 1000 - sampleBooking.total_amount) ∧
    (∃ pay, process_payment sampleWalletState ⟨1, PaymentMethod.debit_card, none, none⟩ 7 =
      Except.ok ({ sampleWalletState with
        payments := sampleWalletState.payments ++ [pay] }, pay) ∧
      pay.amount = sampleBooking.total_amount) := by
  have h := fare_snapshot_and_payment_charge sampleState
    { sampleState with
      bookings := [sampleBooking],
      passengers := [⟨1, "p", 30, Gender.male⟩, ⟨1, "p", 30, Gender.male⟩,
        ⟨1, "p", 30, Gender.male⟩],
      schedules := [sampleSchedule47],
      nextBookingId := 2 }
    sampleWalletState ⟨5, [cexPassenger, cexPassenger, cexPassenger]⟩ 7
    (newScheduleForRoute 5 sampleRoute sampleTrain) sampleRoute sampleBooking
    ⟨1, PaymentMethod.wallet, none, none⟩
    (by decide) (by decide) (by rfl) (by decide) (by decide)
  have hd := fare_snapshot_and_payment_charge sampleState
    { sampleState with
      bookings := [sampleBooking],
      passengers := [⟨1, "p", 30, Gender.male⟩, ⟨1, "p", 30, Gender.male⟩,
        ⟨1, "p", 30, Gender.male⟩],
      schedules := [sampleSchedule47],
      nextBookingId := 2 }
    sampleWalletState ⟨5, [cexPassenger, cexPassenger, cexPassenger]⟩ 7
    (newScheduleForRoute 5 sampleRoute sampleTrain) sampleRoute sampleBooking
    ⟨1, PaymentMethod.debit_card, none, none⟩
    (by decide) (by decide) (by rfl) (by decide) (by decide)
  refine ⟨by simpa [sampleRoute] using h.1, ?_, ?_⟩
  · have h2 := h.2.1 ⟨9, 7, 1000⟩ rfl (by decide) (by decide)
    simpa using h2
  · have h3 := hd.2.2.2.2 rfl
    simpa using h3

/-- Under the serial order enforced by the `with_for_update` row lock, a
batch of single-seat reserve calls against one schedule with `a` seats
available yields exactly `min a n` successes, and `n - min a n` failures
all counted as `InsufficientSeatsError`. -/
theorem runSeatLockReserves_single_seat (r : Route) (reqs : List (BookingCreate × Nat)) :
    ∀ (db : DBState) (s : TrainSchedule) (a : Nat),
      db.schedules = [s] →
      s.available_seats = (a : Int) →
      db.routes.find? (fun t => t.id == s.route_id) = some r →
      (∀ q ∈ reqs, q.1.schedule_id = s.id ∧ q.1.passengers.length = 1) →
      ((runSeatLockReserves db reqs).2.filter isOkResult).length = min a reqs.length ∧
      ((runSeatLockReserves db reqs).2.filter isInsufficientSeats).length =
        reqs.length - min a reqs.length := by
  induction reqs with
  | nil =>
    intro db s a hsch hav hr hq
    simp [runSeatLockReserves]
  | cons q rest ih =>
    obtain ⟨bk, uid⟩ := q
    intro db s a hsch hav hr hq
    have hq0 := hq (bk, uid) (List.mem_cons_self _ rest)
    have hqs : bk.schedule_id = s.id := hq0.1
    have hq1 : bk.passengers.length = 1 := hq0.2
    have hps : (s.id == bk.schedule_id) = true := by simp [hqs]
    have hfind : db.schedules.find? (fun t => t.id == bk.schedule_id) = some s := by
      rw [hsch]
      exact List.find?_cons_of_pos _ hps
    have hqrest : ∀ q ∈ rest, q.1.schedule_id = s.id ∧ q.1.passengers.length = 1 :=
      fun q hqm => hq q (List.mem_cons_of_mem _ hqm)
    rcases Nat.eq_zero_or_pos a with ha0 | hapos
    · subst ha0
      have hav1 : s.available_seats < (bk.passengers.length : Int) := by
        rw [hav, hq1]
        decide
      have hcall : create_booking_with_seat_lock db bk uid =
          Except.error (Err.insufficientSeatsError s.available_seats bk.passengers.length) := by
        simp only [create_booking_with_seat_lock, hfind, if_pos hav1]
      have hrec := ih db s 0 hsch hav hr hqrest
      simp only [runSeatLockReserves, hcall, List.filter_cons]
      simp only [isOkResult, isInsufficientSeats, if_true, if_false, Bool.false_eq_true,
        List.length_cons]
      omega
    · have hnav : ¬ s.available_seats < (bk.passengers.length : Int) := by
        rw [hav, hq1]
        omega
      have hcall : create_booking_with_seat_lock db bk uid =
          Except.ok
            ({ db with
              bookings := db.bookings ++
                [{ id := db.nextBookingId, user_id := uid, schedule_id := bk.schedule_id,
                   passenger_count := bk.passengers.length,
                   total_amount := r.base_fare * (bk.passengers.length : Int),
                   status := BookingStatus.confirmed }],
              passengers := db.passengers ++ bk.passengers.map (fun p =>
                { booking_id := db.nextBookingId, name := p.name, age := p.age,
                  gender := p.gender }),
              schedules := [{ s with available_seats :=
                s.available_seats - (bk.passengers.length : Int) }],
              nextBookingId := db.nextBookingId + 1 },
            { id := db.nextBookingId, user_id := uid, schedule_id := bk.schedule_id,
              passenger_count := bk.passengers.length,
              total_amount := r.base_fare * (bk.passengers.length : Int),
              status := BookingStatus.confirmed }) := by
        simp only [create_booking_with_seat_lock, hfind, if_neg hnav, hr]
        rw [hsch]
        simp [updateFirst, hps]
      have hrec := ih
        { db with
          bookings := db.bookings ++
            [{ id := db.nextBookingId, user_id := uid, schedule_id := bk.schedule_id,
               passenger_count := bk.passengers.length,
               total_amount := r.base_fare * (bk.passengers.length : Int),
               status := BookingStatus.confirmed }],
          passengers := db.passengers ++ bk.passengers.map (fun p =>
            { booking_id := db.nextBookingId, name := p.name, age := p.age,
              gender := p.gender }),
          schedules := [{ s with available_seats :=
            s.available_seats - (bk.passengers.length : Int) }],
          nextBookingId := db.nextBookingId + 1 }
        { s with available_seats := s.available_seats - (bk.passengers.length : Int) }
        (a - 1) rfl
        (by dsimp only; rw [hav, hq1]; omega)
        (by dsimp only; exact hr)
        (by
          intro q hqm
          exact hqrest q hqm)
      simp only [runSeatLockReserves, hcall, List.filter_cons]
      simp only [isOkResult, isInsufficientSeats, if_true, if_false, Bool.false_eq_true,
        List.length_cons]
      omega

/-- Claim C9 — No lost update (serialized): the `with_for_update` row lock
of `create_booking_with_seat_lock` makes each reserve's check-then-
decrement critical section atomic, so a concurrent execution of the 15
calls is an interleaving of atomic calls, i.e. some serial order of them
(this serialization of the database lock is the spec-modelled part).  For
every serial order of 15 single-seat reserve calls against one schedule
with 10 available seats, exactly 10 succeed and 5 fail with
`InsufficientSeatsError` — never more than 10 successes. -/
theorem no_lost_update_ten_successes_five_failures
    (db : DBState) (s : TrainSchedule) (r : Route) (reqs : List (BookingCreate × Nat))
    (hsch : db.schedules = [s])
    (hav : s.available_seats = (10 : Int))
    (hr : db.routes.find? (fun t => t.id == s.route_id) = some r)
    (hlen : reqs.length = 15)
    (hone : ∀ q ∈ reqs, q.1.schedule_id = s.id ∧ q.1.passengers.length = 1) :
    ((runSeatLockReserves db reqs).2.filter isOkResult).length = 10 ∧
    ((runSeatLockReserves db reqs).2.filter isInsufficientSeats).length = 5 := by
  have h := runSeatLockReserves_single_seat r reqs db s 10 hsch (by exact_mod_cast hav)
    hr hone
  rw [hlen] at h
  simpa using h

/-- Concrete instantiation of `no_lost_update_ten_successes_five_failures`:
15 single-seat requests against the 10-seat sample schedule. -/
theorem no_lost_update_ten_successes_five_failures_witness :
    ((runSeatLockReserves tenSeatState fifteenRequests).2.filter isOkResult).length = 10 ∧
    ((runSeatLockReserves tenSeatState fifteenRequests).2.filter
      isInsufficientSeats).length = 5 := by
  exact no_lost_update_ten_successes_five_failures tenSeatState
    (newScheduleForRoute 5 sampleRoute tenSeatTrain) sampleRoute fifteenRequests
    (by rfl) (by decide) (by decide) (by decide) (by decide)

end Railway
